import Mathlib

/-!
Verification of the order-placement workflow of the e-commerce backend
(order controller, product controller) against its specification.

Monetary values are modelled as rationals; `round2` models the
`parseFloat(x.toFixed(2))` rounding used at every monetary output point
(round to nearest with ties going up, matching the ECMAScript `toFixed`
tie rule of picking the larger candidate).

Stateful controller actions are embedded as explicit state-passing
functions over a `Store` (the product collection, the requesting
customer's cart, and the order collection).  Fallible actions return an
`Except` error alongside the resulting store; an early `return res.status(400)`
in the source corresponds to an `.error` result paired with the unchanged
store.
-/

namespace OrderFlow

/-- Rounding to 2 decimal places: `parseFloat(x.toFixed(2))`. -/
def round2 (q : ℚ) : ℚ := (⌊q * 100 + 1/2⌋ : ℚ) / 100

/-- A product document.  Fields are the ones read by the order and
inventory flows: `name`, `price`, `isActive`, `inStock`, `inventoryCount`. -/
structure Product where
  name : String
  price : ℚ
  isActive : Bool
  inStock : Bool
  inventoryCount : Int
deriving DecidableEq

/-- A pricing breakdown as stored on an order (and as supplied by a client
in a checkout request; the request's `discount` may be absent in JSON, in
which case `pricing.discount || 0` reads it as `0`, which on numbers is
the identity modelled here). -/
structure Pricing where
  subtotal : ℚ
  tax : ℚ
  shipping : ℚ
  discount : ℚ
  total : ℚ
deriving DecidableEq

/-- Componentwise 2-decimal rounding of a supplied pricing breakdown,
as done on the client-pricing pass-through path of `createOrder`. -/
def roundPricing (p : Pricing) : Pricing :=
  { subtotal := round2 p.subtotal
    tax := round2 p.tax
    shipping := round2 p.shipping
    discount := round2 p.discount
    total := round2 p.total }

/-- Promo-code discount of `createOrder`: `WELCOME20` gives 20% of the
subtotal, `SAVE10` gives 10%, anything else (including an absent or empty
code, which is falsy in `if (promoCode)`) gives 0. -/
def calcDiscount (promoCode : Option String) (subtotal : ℚ) : ℚ :=
  match promoCode with
  | none => 0
  | some c =>
    if c = "WELCOME20" then subtotal * (20/100)
    else if c = "SAVE10" then subtotal * (10/100)
    else 0

/-- Server-side pricing calculation of `createOrder`: 8% tax, free
shipping strictly above 100 and 9.99 otherwise, promo discount, and the
total, each field rounded to 2 decimals on output. -/
def computePricing (subtotal : ℚ) (promoCode : Option String) : Pricing :=
  let tax := subtotal * (8/100)
  let shipping := if 100 < subtotal then 0 else 999/100
  let discount := calcDiscount promoCode subtotal
  let total := subtotal + tax + shipping - discount
  { subtotal := round2 subtotal
    tax := round2 tax
    shipping := round2 shipping
    discount := round2 discount
    total := round2 total }

/-- A line item of a checkout request body.  `name` and `price` are
client-supplied; `createOrder` reads `name` only to build the
product-unavailable message and never reads `price`. -/
structure ReqItem where
  productId : Nat
  name : Option String
  price : Option ℚ
  quantity : Int
  variant : List (String × String)
deriving DecidableEq

/-- The server-trusted part of a request item: product reference,
quantity and variant.  Everything else is client-only decoration. -/
def scrubItem (it : ReqItem) : Nat × Int × List (String × String) :=
  (it.productId, it.quantity, it.variant)

/-- A persisted order line item, with name/price snapshotted from the
product record at creation time. -/
structure OrderItem where
  productId : Nat
  name : String
  price : ℚ
  quantity : Int
  totalPrice : ℚ
  variant : List (String × String)
deriving DecidableEq

/-- Business-rule failures of order creation, mirroring the early 400
responses of `createOrder`. -/
inductive OrderError where
  | productUnavailable (name : String)
  | outOfStock (name : String)
  | insufficientInventory (available : Int) (name : String)
  | emptyCart
deriving DecidableEq

/-- First-match lookup in the product collection (`Product.findById`). -/
def lookupProduct : List (Nat × Product) → Nat → Option Product
  | [], _ => none
  | (k, p) :: rest, pid => if k = pid then some p else lookupProduct rest pid

/-- Per-item validation of `createOrder`: missing or inactive product,
out-of-stock flag, then insufficient inventory, in that order; on success
the persisted line item is built from the product record. -/
def checkItem (ps : List (Nat × Product)) (it : ReqItem) : Except OrderError OrderItem :=
  match lookupProduct ps it.productId with
  | none => .error (.productUnavailable (it.name.getD "Unknown"))
  | some product =>
    if product.isActive = false then
      .error (.productUnavailable (it.name.getD "Unknown"))
    else if product.inStock = false then
      .error (.outOfStock product.name)
    else if product.inventoryCount < it.quantity then
      .error (.insufficientInventory product.inventoryCount product.name)
    else
      .ok { productId := it.productId
            name := product.name
            price := product.price
            quantity := it.quantity
            totalPrice := product.price * it.quantity
            variant := it.variant }

/-- Fail-fast validation loop of `createOrder`: items are checked in list
order and the first failure aborts the whole request. -/
def validateItems (ps : List (Nat × Product)) : List ReqItem → Except OrderError (List OrderItem)
  | [] => .ok []
  | it :: rest =>
    match checkItem ps it with
    | .error e => .error e
    | .ok oi =>
      match validateItems ps rest with
      | .error e => .error e
      | .ok ois => .ok (oi :: ois)

/-- A persisted order, restricted to the fields the claims are about. -/
structure Order where
  orderNumber : String
  items : List OrderItem
  pricing : Pricing
  promoCode : Option String
  status : String
deriving DecidableEq

/-- Modelled from the spec: `Product.updateStock` lives in the Product
model file, which is not part of the sources; per the spec it adjusts the
inventory count by a delta, clamping at zero at the decrement step. -/
def updateStock (p : Product) (delta : Int) : Product :=
  { p with inventoryCount := max 0 (p.inventoryCount + delta) }

/-- Apply a stock delta to the product with the given id, leaving the
collection unchanged when the id is absent (`if (product)` guard). -/
def applyStock : List (Nat × Product) → Nat → Int → List (Nat × Product)
  | [], _, _ => []
  | (k, p) :: rest, pid, delta =>
    if k = pid then (k, updateStock p delta) :: rest
    else (k, p) :: applyStock rest pid delta

/-- A stored cart line of the requesting customer. -/
structure CartItem where
  productId : Nat
  quantity : Int
  variant : List (String × String)
deriving DecidableEq

/-- The persistent state touched by the order flow: product collection,
the requesting customer's cart, and the order collection. -/
structure Store where
  products : List (Nat × Product)
  cart : List CartItem
  orders : List Order
deriving DecidableEq

/-- A checkout request body (the fields `createOrder` branches on). -/
structure Request where
  items : List ReqItem
  pricing : Option Pricing
  promoCode : Option String
deriving DecidableEq

/-- View of a populated cart line as a request item: the cart fallback
path of `createOrder` runs the same per-item checks, with the error
message drawn from the populated product's name. -/
def cartToReq (ps : List (Nat × Product)) (ci : CartItem) : ReqItem :=
  { productId := ci.productId
    name := (lookupProduct ps ci.productId).map (fun p => p.name)
    price := none
    quantity := ci.quantity
    variant := ci.variant }

/-- Item gathering of `createOrder`: use the request-body items when any
are present, otherwise fall back to the stored cart, dropping cart lines
whose product no longer exists and rejecting an empty result. -/
def gatherItems (store : Store) (req : Request) : Except OrderError (List OrderItem) :=
  if req.items.isEmpty then
    let validCart := store.cart.filter
      (fun ci => (lookupProduct store.products ci.productId).isSome)
    if validCart.isEmpty then .error .emptyCart
    else validateItems store.products (validCart.map (cartToReq store.products))
  else validateItems store.products req.items

/-- Pricing selection of `createOrder`: a supplied breakdown with a truthy
(nonzero) total is rounded and passed through; otherwise pricing is
computed server-side from the validated subtotal and promo code. -/
def finalPricing (clientPricing : Option Pricing) (subtotal : ℚ)
    (promoCode : Option String) : Pricing :=
  match clientPricing with
  | some p => if p.total = 0 then computePricing subtotal promoCode else roundPricing p
  | none => computePricing subtotal promoCode

/-- Post-creation inventory decrement loop of `createOrder`. -/
def decrementAll (ps : List (Nat × Product)) (ois : List OrderItem) : List (Nat × Product) :=
  ois.foldl (fun acc oi => applyStock acc oi.productId (-oi.quantity)) ps

/-- Inventory restoration loop of `cancelOrder`. -/
def restoreAll (ps : List (Nat × Product)) (ois : List OrderItem) : List (Nat × Product) :=
  ois.foldl (fun acc oi => applyStock acc oi.productId oi.quantity) ps

/-- The order-creation flow: validate items (fail fast, store untouched on
failure), select pricing, persist the order (status `pending` is the
schema default per the spec), decrement inventory per line item, and
clear the customer's cart. -/
def createOrder (store : Store) (req : Request) (orderNumber : String) :
    Except OrderError Order × Store :=
  match gatherItems store req with
  | .error e => (.error e, store)
  | .ok ois =>
    let subtotal := (ois.map (fun oi => oi.totalPrice)).sum
    let pricing := finalPricing req.pricing subtotal req.promoCode
    let order : Order :=
      { orderNumber := orderNumber
        items := ois
        pricing := pricing
        promoCode := req.promoCode
        status := "pending" }
    (.ok order,
      { products := decrementAll store.products ois
        cart := []
        orders := store.orders ++ [order] })

/-- The created order of a creation result, if any. -/
def orderResult (r : Except OrderError Order × Store) : Option Order :=
  match r.1 with
  | .ok o => some o
  | .error _ => none

/-- Failures of order cancellation. -/
inductive CancelError where
  | notFound
  | cannotCancel
deriving DecidableEq

/-- The cancellation flow (`DELETE /orders/:id`): reject when the order is
already shipped or delivered; otherwise set the status to `cancelled`
(`order.updateStatus`, modelled from the spec: the Order model is not part
of the sources) and restore each line item's quantity to its product. -/
def cancelOrder (store : Store) (i : Nat) : Except CancelError Unit × Store :=
  match store.orders.get? i with
  | none => (.error .notFound, store)
  | some o =>
    if o.status = "shipped" ∨ o.status = "delivered" then
      (.error .cannotCancel, store)
    else
      (.ok (),
        { store with
            orders := store.orders.set i { o with status := "cancelled" }
            products := restoreAll store.products o.items })

/-- Order-number generation: `ORD-` followed by the millisecond timestamp
and `Math.floor(Math.random() * 10000)`, with `rand` the `Math.random()`
draw. -/
def generateOrderNumber (timestamp : Nat) (rand : ℚ) : String :=
  "ORD-" ++ toString timestamp ++ "-" ++ toString (⌊rand * 10000⌋)

/-- The admin inventory-update operation on a found active product:
`add` increments, `subtract` decrements clamping at zero, any other
operation string (the default is `set`) overwrites the count; the
in-stock flag is then re-derived from the new count.  (The source's
`product.inventoryCount || 0` only differs on an undefined count, which
the model's always-present integer field cannot represent.) -/
def updateInventory (p : Product) (quantity : Int) (operation : String) : Product :=
  let count :=
    if operation = "add" then p.inventoryCount + quantity
    else if operation = "subtract" then max 0 (p.inventoryCount - quantity)
    else quantity
  { p with inventoryCount := count, inStock := decide (0 < count) }

/-- A sample in-stock product used by concrete witnesses. -/
def widget : Product :=
  { name := "Widget", price := 10, isActive := true, inStock := true, inventoryCount := 5 }

/-- A sample one-product store used by concrete witnesses. -/
def demoStore : Store :=
  { products := [(1, widget)], cart := [], orders := [] }

/-- A sample checkout request for two widgets, server-priced, no promo. -/
def demoReq : Request :=
  { items := [{ productId := 1, name := some "Widget", price := some 10,
                quantity := 2, variant := [] }]
    pricing := none
    promoCode := none }

/-- The order `createOrder demoStore demoReq` creates: subtotal 20,
tax 1.60, shipping 9.99, total 31.59. -/
def demoOrder : Order :=
  { orderNumber := "ORD-1-2"
    items := [{ productId := 1, name := "Widget", price := 10, quantity := 2,
                totalPrice := 20, variant := [] }]
    pricing := { subtotal := 20, tax := 8/5, shipping := 999/100, discount := 0,
                 total := 3159/100 }
    promoCode := none
    status := "pending" }

/-- A client-supplied pricing breakdown with a nonzero total, used by
concrete witnesses of the pass-through path. -/
def clientPricing : Pricing :=
  { subtotal := 1, tax := 2, shipping := 3, discount := 4, total := 5 }

/-- The demo request with `clientPricing` attached. -/
def passReq : Request :=
  { items := demoReq.items, pricing := some clientPricing, promoCode := none }

/-- The order `createOrder demoStore passReq` creates: the supplied
pricing passed through unchanged (its fields are already 2-decimal). -/
def passOrder : Order :=
  { orderNumber := "ORD-1-2"
    items := demoOrder.items
    pricing := clientPricing
    promoCode := none
    status := "pending" }

/-- A client-supplied pricing breakdown whose total is 0 (a fully
discounted cart), used by the C4 counterexample. -/
def zeroTotalPricing : Pricing :=
  { subtotal := 5, tax := 0, shipping := 0, discount := 5, total := 0 }

/-- The demo request with `zeroTotalPricing` attached. -/
def zeroTotalReq : Request :=
  { items := demoReq.items, pricing := some zeroTotalPricing, promoCode := none }

/-- A request whose first item is fine and whose second asks for more
units than are in stock, used by concrete witnesses. -/
def failReq : Request :=
  { items := [{ productId := 1, name := some "Widget", price := some 10,
                quantity := 1, variant := [] },
              { productId := 1, name := some "Widget", price := none,
                quantity := 10, variant := [] }]
    pricing := none
    promoCode := none }

/-- A store with nothing in it, used by concrete witnesses. -/
def emptyStore : Store := { products := [], cart := [], orders := [] }

/-- A request with no items, used by concrete witnesses: with an empty
cart it makes order creation fail. -/
def emptyReq : Request := { items := [], pricing := none, promoCode := none }

/-- A store holding the demo order (still pending), used by concrete
witnesses of cancellation. -/
def cancelStore : Store :=
  { products := [(1, widget)], cart := [], orders := [demoOrder] }

/-- The demo order after shipping. -/
def shippedOrder : Order := { demoOrder with status := "shipped" }

/-- A store holding the shipped demo order, used by concrete witnesses of
cancellation rejection. -/
def shippedStore : Store :=
  { products := [(1, widget)], cart := [], orders := [shippedOrder] }

/-!  Helper lemmas shared by the claim theorems. -/

theorem round2_zero : round2 0 = 0 := by norm_num [round2]

theorem round2_of_int_mul (x : ℚ) (m : ℤ) (h : x * 100 = m) : round2 x = x := by
  unfold round2
  rw [h]
  have hf : ⌊(m : ℚ) + 1/2⌋ = m := by
    rw [Int.floor_int_add]
    norm_num
  rw [hf]
  field_simp at h ⊢
  linarith

theorem round2_add_int_mul (x y : ℚ) (m : ℤ) (h : y * 100 = m) :
    round2 (x + y) = round2 x + y := by
  unfold round2
  have hx : (x + y) * 100 + 1/2 = x * 100 + 1/2 + (m : ℚ) := by
    rw [← h]; ring
  rw [hx, Int.floor_add_int]
  have hy : y = (m : ℚ) / 100 := by
    field_simp at h ⊢
    linarith
  rw [hy]
  push_cast
  ring

theorem createOrder_error_store (store : Store) (req : Request) (n : String)
    (e : OrderError) (h : (createOrder store req n).1 = .error e) :
    (createOrder store req n).2 = store := by
  unfold createOrder at h ⊢
  cases hg : gatherItems store req with
  | error e' => simp [hg]
  | ok ois => simp [hg] at h

theorem validateItems_error_first (ps : List (Nat × Product)) :
    ∀ (items : List ReqItem) (e : OrderError),
      validateItems ps items = .error e →
      ∃ i, ∃ hi : i < items.length,
        checkItem ps (items.get ⟨i, hi⟩) = .error e ∧
        ∀ j, ∀ hj : j < i, ∃ oi, checkItem ps (items.get ⟨j, Nat.lt_trans hj hi⟩) = .ok oi
  | [], e => by simp [validateItems]
  | it :: rest, e => by
    intro h
    unfold validateItems at h
    cases hc : checkItem ps it with
    | error e' =>
      rw [hc] at h
      cases h
      exact ⟨0, Nat.succ_pos _, hc, fun j hj => absurd hj (Nat.not_lt_zero j)⟩
    | ok oi =>
      rw [hc] at h
      cases hr : validateItems ps rest with
      | error e' =>
        rw [hr] at h
        cases h
        obtain ⟨i, hi, hfail, hprev⟩ := validateItems_error_first ps rest e hr
        refine ⟨i + 1, Nat.succ_lt_succ hi, hfail, ?_⟩
        intro j hj
        match j with
        | 0 => exact ⟨oi, hc⟩
        | j + 1 => exact hprev j (Nat.lt_of_succ_lt_succ hj)
      | ok ois => rw [hr] at h; cases h

theorem validateItems_ok_totalPrice (ps : List (Nat × Product)) :
    ∀ (items : List ReqItem) (ois : List OrderItem),
      validateItems ps items = .ok ois →
      ∀ oi ∈ ois, oi.totalPrice = oi.price * (oi.quantity : ℚ)
  | [], ois => by
    intro h
    cases h
    simp
  | it :: rest, ois => by
    intro h
    unfold validateItems at h
    cases hc : checkItem ps it with
    | error e => rw [hc] at h; cases h
    | ok oi =>
      rw [hc] at h
      cases hr : validateItems ps rest with
      | error e => rw [hr] at h; cases h
      | ok ois' =>
        rw [hr] at h
        cases h
        intro x hx
        rcases List.mem_cons.mp hx with hx | hx
        · subst hx
          unfold checkItem at hc
          cases hl : lookupProduct ps it.productId with
          | none => rw [hl] at hc; cases hc
          | some product =>
            rw [hl] at hc
            by_cases ha : product.isActive = false
            · simp [ha] at hc
            · by_cases hs : product.inStock = false
              · simp [ha, hs] at hc
              · by_cases hq : product.inventoryCount < it.quantity
                · simp [ha, hs, hq] at hc
                · simp [ha, hs, hq] at hc
                  cases hc
                  rfl
        · exact validateItems_ok_totalPrice ps rest ois' hr x hx

theorem gatherItems_ok_totalPrice (store : Store) (req : Request)
    (ois : List OrderItem) (h : gatherItems store req = .ok ois) :
    ∀ oi ∈ ois, oi.totalPrice = oi.price * (oi.quantity : ℚ) := by
  unfold gatherItems at h
  by_cases he : req.items.isEmpty
  · rw [if_pos he] at h
    by_cases hc : (store.cart.filter
        (fun ci => (lookupProduct store.products ci.productId).isSome)).isEmpty
    · rw [if_pos hc] at h; cases h
    · rw [if_neg hc] at h
      exact validateItems_ok_totalPrice store.products _ ois h
  · rw [if_neg he] at h
    exact validateItems_ok_totalPrice store.products _ ois h

theorem lookup_applyStock (ps : List (Nat × Product)) (qid pid : Nat) (delta : Int) :
    lookupProduct (applyStock ps qid delta) pid =
      if pid = qid then (lookupProduct ps pid).map (fun p => updateStock p delta)
      else lookupProduct ps pid := by
  induction ps with
  | nil => simp [applyStock, lookupProduct]
  | cons hd tl ih =>
    obtain ⟨k, p⟩ := hd
    by_cases hk : k = qid
    · subst hk
      by_cases hp : k = pid
      · subst hp
        simp [applyStock, lookupProduct]
      · have hne : ¬ pid = k := fun he => hp he.symm
        simp [applyStock, lookupProduct, hp, hne]
    · by_cases hp : k = pid
      · subst hp
        have hne : ¬ k = qid := hk
        simp [applyStock, lookupProduct, hne]
      · simp [applyStock, lookupProduct, hk, hp, ih]

theorem lookup_restoreAll (pid : Nat) (ois : List OrderItem) :
    ∀ (ps : List (Nat × Product)) (p : Product),
      lookupProduct ps pid = some p → 0 ≤ p.inventoryCount →
      (∀ oi ∈ ois, 0 ≤ oi.quantity) →
      lookupProduct (restoreAll ps ois) pid =
        some { p with inventoryCount := p.inventoryCount +
          ((ois.filter (fun oi => decide (oi.productId = pid))).map
            (fun oi => oi.quantity)).sum } := by
  induction ois with
  | nil =>
    intro ps p hp _ _
    simpa [restoreAll] using hp
  | cons oi rest ih =>
    intro ps p hp hc hq
    have hrest : restoreAll ps (oi :: rest) =
        restoreAll (applyStock ps oi.productId oi.quantity) rest := rfl
    rw [hrest]
    have hq0 : 0 ≤ oi.quantity := hq oi (List.mem_cons_self oi rest)
    by_cases hid : oi.productId = pid
    · have hl : lookupProduct (applyStock ps oi.productId oi.quantity) pid =
          some (updateStock p oi.quantity) := by
        rw [lookup_applyStock, if_pos hid.symm, hp]
        rfl
      have hup : updateStock p oi.quantity =
          { p with inventoryCount := p.inventoryCount + oi.quantity } := by
        unfold updateStock
        have : max 0 (p.inventoryCount + oi.quantity) = p.inventoryCount + oi.quantity :=
          max_eq_right (by omega)
        rw [this]
      rw [hup] at hl
      have := ih (applyStock ps oi.productId oi.quantity)
        { p with inventoryCount := p.inventoryCount + oi.quantity }
        hl (by dsimp; omega) (fun x hx => hq x (List.mem_cons_of_mem oi hx))
      rw [this]
      simp [hid, add_assoc]
    · have hl : lookupProduct (applyStock ps oi.productId oi.quantity) pid =
          lookupProduct ps pid := by
        rw [lookup_applyStock, if_neg (fun he => hid he.symm)]
      have := ih (applyStock ps oi.productId oi.quantity) p
        (hl.trans hp) hc (fun x hx => hq x (List.mem_cons_of_mem oi hx))
      rw [this]
      simp [hid]

theorem checkItem_ok_congr (ps : List (Nat × Product)) (it it' : ReqItem)
    (h : scrubItem it = scrubItem it') (oi : OrderItem)
    (hok : checkItem ps it = .ok oi) : checkItem ps it' = .ok oi := by
  have hid : it.productId = it'.productId := congrArg (fun x => x.1) h
  have hq : it.quantity = it'.quantity := congrArg (fun x => x.2.1) h
  have hv : it.variant = it'.variant := congrArg (fun x => x.2.2) h
  unfold checkItem at hok ⊢
  rw [← hid, ← hq, ← hv]
  cases hl : lookupProduct ps it.productId with
  | none => rw [hl] at hok; cases hok
  | some product =>
    rw [hl] at hok
    by_cases ha : product.isActive = false
    · simp [ha] at hok
    · by_cases hs : product.inStock = false
      · simp [ha, hs] at hok
      · by_cases hlt : product.inventoryCount < it.quantity
        · simp [ha, hs, hlt] at hok
        · simp only [if_neg ha, if_neg hs, if_neg hlt] at hok ⊢
          exact hok

theorem validateItems_map_eq (ps : List (Nat × Product)) (items : List ReqItem) :
    ∀ (items' : List ReqItem), items.map scrubItem = items'.map scrubItem →
      ∀ ois, validateItems ps items = .ok ois → validateItems ps items' = .ok ois := by
  induction items with
  | nil =>
    intro items' hmap ois hok
    have : items' = [] := by
      cases items' with
      | nil => rfl
      | cons a l => simp at hmap
    subst this
    exact hok
  | cons it rest ih =>
    intro items' hmap ois hok
    cases items' with
    | nil => simp at hmap
    | cons it' rest' =>
      simp only [List.map_cons, List.cons.injEq] at hmap
      obtain ⟨hhd, htl⟩ := hmap
      unfold validateItems at hok ⊢
      cases hc : checkItem ps it with
      | error e => rw [hc] at hok; cases hok
      | ok oi =>
        rw [hc] at hok
        rw [checkItem_ok_congr ps it it' hhd oi hc]
        cases hr : validateItems ps rest with
        | error e => rw [hr] at hok; cases hok
        | ok ois' =>
          rw [hr] at hok
          rw [ih rest' htl ois' hr]
          exact hok

theorem items_nonempty_isEmpty {req : Request} (hne : req.items ≠ []) :
    req.items.isEmpty = false := by
  cases h : req.items with
  | nil => exact absurd h hne
  | cons a l => rfl

theorem gatherItems_of_nonempty (store : Store) (req : Request)
    (hne : req.items ≠ []) :
    gatherItems store req = validateItems store.products req.items := by
  unfold gatherItems
  rw [if_neg (by simp [items_nonempty_isEmpty hne])]

theorem checkItem_classify (ps : List (Nat × Product)) (it : ReqItem) :
    ((∃ m, checkItem ps it = .error (.productUnavailable m)) ↔
      lookupProduct ps it.productId = none ∨
      ∃ p, lookupProduct ps it.productId = some p ∧ p.isActive = false) ∧
    ((∃ m, checkItem ps it = .error (.outOfStock m)) ↔
      ∃ p, lookupProduct ps it.productId = some p ∧
        p.isActive = true ∧ p.inStock = false) ∧
    ((∃ a m, checkItem ps it = .error (.insufficientInventory a m)) ↔
      ∃ p, lookupProduct ps it.productId = some p ∧
        p.isActive = true ∧ p.inStock = true ∧ p.inventoryCount < it.quantity) := by
  cases hl : lookupProduct ps it.productId with
  | none => simp [checkItem, hl]
  | some product =>
    by_cases ha : product.isActive = false
    · simp [checkItem, hl, ha]
    · have ha' : product.isActive = true := by
        cases h : product.isActive with
        | false => exact absurd h ha
        | true => rfl
      by_cases hs : product.inStock = false
      · simp [checkItem, hl, ha, ha', hs]
      · have hs' : product.inStock = true := by
          cases h : product.inStock with
          | false => exact absurd h hs
          | true => rfl
        by_cases hlt : product.inventoryCount < it.quantity
        · simp [checkItem, hl, ha, ha', hs, hs', hlt]
        · simp [checkItem, hl, ha, ha', hs, hs', hlt]

theorem demoOrder_created :
    (createOrder demoStore demoReq "ORD-1-2").1 = .ok demoOrder := by
  simp +decide [createOrder, gatherItems, validateItems, checkItem, lookupProduct,
    demoStore, demoReq, demoOrder, widget, finalPricing, computePricing, calcDiscount,
    Order.mk.injEq, Pricing.mk.injEq, OrderItem.mk.injEq]
  norm_num [round2]

theorem passOrder_created :
    (createOrder demoStore passReq "ORD-1-2").1 = .ok passOrder := by
  simp +decide [createOrder, gatherItems, validateItems, checkItem, lookupProduct,
    demoStore, demoReq, passReq, passOrder, demoOrder, widget, finalPricing,
    roundPricing, clientPricing, Order.mk.injEq, Pricing.mk.injEq, OrderItem.mk.injEq]
  norm_num [round2]

/-!  Claim theorems. -/

/-- C1: when the client supplies no pricing breakdown and no promo code,
the persisted pricing is computed from the persisted line items as
subtotal = Σ price·quantity, tax = 8% of subtotal, shipping = 0 above
100 and 9.99 otherwise, discount = 0, total = subtotal + tax + shipping,
each output field rounded to 2 decimal places. -/
theorem C1_server_pricing (store : Store) (req : Request) (n : String) (o : Order)
    (hpr : req.pricing = none) (hpc : req.promoCode = none)
    (ho : (createOrder store req n).1 = .ok o) :
    o.pricing.subtotal =
      round2 ((o.items.map fun oi => oi.price * (oi.quantity : ℚ)).sum) ∧
    o.pricing.tax =
      round2 (((o.items.map fun oi => oi.price * (oi.quantity : ℚ)).sum) * (8/100)) ∧
    o.pricing.shipping =
      round2 (if 100 < (o.items.map fun oi => oi.price * (oi.quantity : ℚ)).sum
        then 0 else 999/100) ∧
    o.pricing.discount = 0 ∧
    o.pricing.total =
      round2 ((o.items.map fun oi => oi.price * (oi.quantity : ℚ)).sum +
        ((o.items.map fun oi => oi.price * (oi.quantity : ℚ)).sum) * (8/100) +
        (if 100 < (o.items.map fun oi => oi.price * (oi.quantity : ℚ)).sum
          then 0 else 999/100)) := by
  unfold createOrder at ho
  cases hg : gatherItems store req with
  | error e => rw [hg] at ho; cases ho
  | ok ois =>
    rw [hg] at ho
    have ho' : Except.ok
        ({ orderNumber := n
           items := ois
           pricing := finalPricing req.pricing ((ois.map fun oi => oi.totalPrice).sum)
             req.promoCode
           promoCode := req.promoCode
           status := "pending" } : Order) = Except.ok o := ho
    injection ho' with ho''
    subst ho''
    have hsum : (ois.map fun oi => oi.totalPrice).sum =
        (ois.map fun oi => oi.price * (oi.quantity : ℚ)).sum := by
      rw [List.map_congr_left (gatherItems_ok_totalPrice store req ois hg)]
    rw [hpr, hpc]
    refine ⟨?_, ?_, ?_, ?_, ?_⟩ <;>
      simp [finalPricing, computePricing, calcDiscount, hsum, round2_zero, sub_zero]

/-- Witness for C1 at the two-widget request: subtotal 20, tax 1.60,
shipping 9.99, total 31.59. -/
theorem C1_server_pricing_witness :
    demoOrder.pricing.subtotal =
      round2 ((demoOrder.items.map fun oi => oi.price * (oi.quantity : ℚ)).sum) ∧
    demoOrder.pricing.tax =
      round2 (((demoOrder.items.map fun oi => oi.price * (oi.quantity : ℚ)).sum) * (8/100)) ∧
    demoOrder.pricing.shipping =
      round2 (if 100 < (demoOrder.items.map fun oi => oi.price * (oi.quantity : ℚ)).sum
        then 0 else 999/100) ∧
    demoOrder.pricing.discount = 0 ∧
    demoOrder.pricing.total =
      round2 ((demoOrder.items.map fun oi => oi.price * (oi.quantity : ℚ)).sum +
        ((demoOrder.items.map fun oi => oi.price * (oi.quantity : ℚ)).sum) * (8/100) +
        (if 100 < (demoOrder.items.map fun oi => oi.price * (oi.quantity : ℚ)).sum
          then 0 else 999/100)) :=
  C1_server_pricing demoStore demoReq "ORD-1-2" demoOrder rfl rfl demoOrder_created

/-- C4 counterexample: a supplied pricing breakdown whose `total` is 0 is
not passed through — the calculator runs instead — so the bypass does not
happen for every supplied breakdown. -/
theorem C4_counterexample :
    (orderResult (createOrder demoStore zeroTotalReq "ORD-1-2")).map
        (fun o => o.pricing) ≠ some (roundPricing zeroTotalPricing) := by
  simp +decide [createOrder, gatherItems, validateItems, checkItem, lookupProduct,
    demoStore, zeroTotalReq, zeroTotalPricing, demoReq, widget, finalPricing,
    computePricing, calcDiscount, orderResult, roundPricing, Pricing.mk.injEq]
  norm_num [round2]

/-- C4 as amended: the bypass happens exactly when the supplied breakdown
has a truthy (nonzero) total — in that case the supplied fields are
rounded to 2 decimals and persisted with no validation against the line
items (the persisted pricing does not depend on them). -/
theorem C4_pricing_passthrough (store : Store) (req : Request) (n : String)
    (p : Pricing) (o : Order)
    (hp : req.pricing = some p) (ht : p.total ≠ 0)
    (ho : (createOrder store req n).1 = .ok o) :
    o.pricing = roundPricing p := by
  unfold createOrder at ho
  cases hg : gatherItems store req with
  | error e => rw [hg] at ho; cases ho
  | ok ois =>
    rw [hg] at ho
    have ho' : Except.ok
        ({ orderNumber := n
           items := ois
           pricing := finalPricing req.pricing ((ois.map fun oi => oi.totalPrice).sum)
             req.promoCode
           promoCode := req.promoCode
           status := "pending" } : Order) = Except.ok o := ho
    injection ho' with ho''
    subst ho''
    simp [finalPricing, hp, ht]

/-- Witness for C4 as amended: the supplied 1/2/3/4/5 breakdown survives
untouched even though the line items price to a different total. -/
theorem C4_pricing_passthrough_witness :
    passOrder.pricing = roundPricing clientPricing :=
  C4_pricing_passthrough demoStore passReq "ORD-1-2" clientPricing passOrder
    rfl (by norm_num [clientPricing]) passOrder_created

/-- C5 counterexample: a 0.05 subtotal with promo SAVE10 computes rounded
fields 0.05, 0.00, 9.99, 0.01 but rounded total 10.04, so the equation
does not hold over the rounded output values. -/
theorem C5_counterexample :
    (computePricing (1/20) (some "SAVE10")).total ≠
      (computePricing (1/20) (some "SAVE10")).subtotal +
      (computePricing (1/20) (some "SAVE10")).tax +
      (computePricing (1/20) (some "SAVE10")).shipping -
      (computePricing (1/20) (some "SAVE10")).discount := by
  norm_num +decide [computePricing, calcDiscount, round2]

/-- C5 as amended: the computed total is the 2-decimal rounding of the
exact sum subtotal + tax + shipping − discount, and the equation holds
over the rounded output fields whenever the exact subtotal and exact
discount are integer multiples of 0.01 (the rounding of tax and of total
then move together). -/
theorem C5_total_identity (s : ℚ) (promo : Option String) :
    (computePricing s promo).total =
      round2 (s + s * (8/100) + (if 100 < s then 0 else 999/100) -
        calcDiscount promo s) ∧
    ((∃ m : ℤ, s * 100 = m) → (∃ l : ℤ, calcDiscount promo s * 100 = l) →
      (computePricing s promo).total =
        (computePricing s promo).subtotal + (computePricing s promo).tax +
        (computePricing s promo).shipping - (computePricing s promo).discount) := by
  constructor
  · rfl
  · rintro ⟨m, hm⟩ ⟨l, hl⟩
    have hsh : ∃ k : ℤ, (if 100 < s then (0:ℚ) else 999/100) * 100 = k := by
      split
      · exact ⟨0, by norm_num⟩
      · exact ⟨999, by norm_num⟩
    obtain ⟨k, hk⟩ := hsh
    simp only [computePricing]
    have hrest : (s + (if 100 < s then (0:ℚ) else 999/100) - calcDiscount promo s)
        * 100 = ((m + k - l : ℤ) : ℚ) := by
      push_cast
      rw [← hm, ← hk, ← hl]
      ring
    have h1 : round2 (s + s * (8/100) + (if 100 < s then (0:ℚ) else 999/100) -
        calcDiscount promo s) =
        round2 (s * (8/100)) +
          (s + (if 100 < s then (0:ℚ) else 999/100) - calcDiscount promo s) := by
      have hx : s + s * (8/100) + (if 100 < s then (0:ℚ) else 999/100) -
          calcDiscount promo s =
          s * (8/100) +
            (s + (if 100 < s then (0:ℚ) else 999/100) - calcDiscount promo s) := by
        ring
      rw [hx, round2_add_int_mul _ _ (m + k - l) hrest]
    rw [h1, round2_of_int_mul s m hm, round2_of_int_mul _ k hk,
      round2_of_int_mul _ l hl]
    ring

/-- Witness for C5 as amended at subtotal 100 with promo WELCOME20:
100 + 8 + 9.99 − 20 = 97.99 over the rounded fields. -/
theorem C5_total_identity_witness :
    (computePricing 100 (some "WELCOME20")).total =
      (computePricing 100 (some "WELCOME20")).subtotal +
      (computePricing 100 (some "WELCOME20")).tax +
      (computePricing 100 (some "WELCOME20")).shipping -
      (computePricing 100 (some "WELCOME20")).discount :=
  (C5_total_identity 100 (some "WELCOME20")).2 ⟨10000, by norm_num⟩
    ⟨2000, by norm_num +decide [calcDiscount]⟩

/-- C6: the computed discount is 20% of the subtotal for WELCOME20, 10%
for SAVE10 and 0 for any other or absent code (the persisted field being
the 2-decimal rounding of that amount), and the promo code never affects
whether order creation succeeds. -/
theorem C6_promo_discount (s : ℚ) (c : String) (store : Store) (req : Request)
    (n : String) (hw : c ≠ "WELCOME20") (hs : c ≠ "SAVE10") :
    calcDiscount (some "WELCOME20") s = s * (20/100) ∧
    calcDiscount (some "SAVE10") s = s * (10/100) ∧
    calcDiscount (some c) s = 0 ∧
    calcDiscount none s = 0 ∧
    (∀ promo, (computePricing s promo).discount = round2 (calcDiscount promo s)) ∧
    (orderResult (createOrder store { req with promoCode := some c } n)).isSome =
      (orderResult (createOrder store { req with promoCode := none } n)).isSome := by
  refine ⟨by simp [calcDiscount], by simp [calcDiscount],
    by simp [calcDiscount, hw, hs], rfl, fun promo => rfl, ?_⟩
  have hg1 : gatherItems store { req with promoCode := some c } =
      gatherItems store req := rfl
  have hg2 : gatherItems store { req with promoCode := none } =
      gatherItems store req := rfl
  unfold createOrder orderResult
  rw [hg1, hg2]
  cases gatherItems store req <;> simp

/-- Witness for C6 with the unrecognized code BOGUS on the demo store. -/
theorem C6_promo_discount_witness :
    calcDiscount (some "WELCOME20") 100 = 100 * (20/100) ∧
    calcDiscount (some "SAVE10") 100 = 100 * (10/100) ∧
    calcDiscount (some "BOGUS") 100 = 0 ∧
    calcDiscount none 100 = 0 ∧
    (∀ promo, (computePricing 100 promo).discount =
      round2 (calcDiscount promo 100)) ∧
    (orderResult (createOrder demoStore
        { demoReq with promoCode := some "BOGUS" } "ORD-1-2")).isSome =
      (orderResult (createOrder demoStore
        { demoReq with promoCode := none } "ORD-1-2")).isSome :=
  C6_promo_discount 100 "BOGUS" demoStore demoReq "ORD-1-2"
    (by decide) (by decide)

/-- C8: every generated order number has the format
`ORD-<unix-ms-timestamp>-<n>` with `n` an integer between 0 and 9999,
because `Math.floor` of a `Math.random()` draw scaled by 10000 lies in
that range. -/
theorem C8_order_number_format (ts : Nat) (r : ℚ) (h0 : 0 ≤ r) (h1 : r < 1) :
    ∃ n : ℤ, 0 ≤ n ∧ n ≤ 9999 ∧
      generateOrderNumber ts r = "ORD-" ++ toString ts ++ "-" ++ toString n := by
  refine ⟨⌊r * 10000⌋, Int.floor_nonneg.mpr (by positivity), ?_, rfl⟩
  have hlt : r * 10000 < 10000 := by nlinarith
  have h2 : ⌊r * 10000⌋ < 10000 := Int.floor_lt.mpr (by exact_mod_cast hlt)
  omega

/-- Witness for C8 at timestamp 1735600000000 and random draw 1/2. -/
theorem C8_order_number_format_witness :
    ∃ n : ℤ, 0 ≤ n ∧ n ≤ 9999 ∧
      generateOrderNumber 1735600000000 (1/2) =
        "ORD-" ++ toString 1735600000000 ++ "-" ++ toString n :=
  C8_order_number_format 1735600000000 (1/2) (by norm_num) (by norm_num)

/-- C10 counterexample: an admin inventory update with operation `set`
and a negative quantity drives the inventory count below zero, so not
every invocation leaves the count non-negative. -/
theorem C10_counterexample :
    (updateInventory widget (-3) "set").inventoryCount < 0 := by
  simp +decide [updateInventory, widget]

/-- C10 as amended: provided the requested quantity and the existing
inventory count are non-negative, every set/add/subtract invocation
leaves the inventory count non-negative; `subtract` always clamps at
zero; and the in-stock flag is always re-derived as `count > 0`. -/
theorem C10_inventory_nonneg (p : Product) (q : Int) (op : String)
    (hq : 0 ≤ q) (hc : 0 ≤ p.inventoryCount) :
    0 ≤ (updateInventory p q op).inventoryCount ∧
    (updateInventory p q op).inStock =
      decide (0 < (updateInventory p q op).inventoryCount) ∧
    (updateInventory p q "subtract").inventoryCount = max 0 (p.inventoryCount - q) := by
  refine ⟨?_, rfl, ?_⟩
  · unfold updateInventory
    dsimp only
    split_ifs <;> omega
  · unfold updateInventory
    simp +decide

/-- Witness for C10 as amended: adding 2 units to the sample product. -/
theorem C10_inventory_nonneg_witness :
    0 ≤ (updateInventory widget 2 "add").inventoryCount ∧
    (updateInventory widget 2 "add").inStock =
      decide (0 < (updateInventory widget 2 "add").inventoryCount) ∧
    (updateInventory widget 2 "subtract").inventoryCount =
      max 0 (widget.inventoryCount - 2) :=
  C10_inventory_nonneg widget 2 "add" (by norm_num) (by norm_num [widget])

/-- C2: when order creation fails on a request-body item list, the store
is untouched (no order persisted, no inventory or cart mutation), the
returned error is the failure of the first item, in list order, whose
check fails, every earlier item having passed its check; and a check
fails with `productUnavailable` exactly on a missing or inactive product,
with `outOfStock` exactly on a cleared in-stock flag, and with
`insufficientInventory` exactly when the count is below the requested
quantity. -/
theorem C2_validation_fail_fast (store : Store) (req : Request) (n : String)
    (e : OrderError) (hne : req.items ≠ [])
    (herr : (createOrder store req n).1 = .error e) :
    (createOrder store req n).2 = store ∧
    (∃ i, ∃ hi : i < req.items.length,
      checkItem store.products (req.items.get ⟨i, hi⟩) = .error e ∧
      ∀ j, ∀ hj : j < i, ∃ oi,
        checkItem store.products (req.items.get ⟨j, Nat.lt_trans hj hi⟩) = .ok oi) ∧
    (∀ it : ReqItem,
      ((∃ m, checkItem store.products it = .error (.productUnavailable m)) ↔
        lookupProduct store.products it.productId = none ∨
        ∃ p, lookupProduct store.products it.productId = some p ∧ p.isActive = false) ∧
      ((∃ m, checkItem store.products it = .error (.outOfStock m)) ↔
        ∃ p, lookupProduct store.products it.productId = some p ∧
          p.isActive = true ∧ p.inStock = false) ∧
      ((∃ a m, checkItem store.products it = .error (.insufficientInventory a m)) ↔
        ∃ p, lookupProduct store.products it.productId = some p ∧
          p.isActive = true ∧ p.inStock = true ∧ p.inventoryCount < it.quantity)) := by
  refine ⟨createOrder_error_store store req n e herr, ?_, checkItem_classify store.products⟩
  have hg : gatherItems store req = validateItems store.products req.items :=
    gatherItems_of_nonempty store req hne
  unfold createOrder at herr
  rw [hg] at herr
  cases hv : validateItems store.products req.items with
  | error e' =>
    rw [hv] at herr
    cases herr
    exact validateItems_error_first store.products req.items e hv
  | ok ois => rw [hv] at herr; cases herr

/-- Witness for C2: the second item of `failReq` asks for 10 widgets with
only 5 in stock; the store is untouched. -/
theorem C2_validation_fail_fast_witness :
    (createOrder demoStore failReq "ORD-1-2").2 = demoStore :=
  (C2_validation_fail_fast demoStore failReq "ORD-1-2"
    (.insufficientInventory 5 "Widget")
    (by simp [failReq])
    (by simp +decide [createOrder, gatherItems, validateItems, checkItem,
          lookupProduct, demoStore, failReq, widget])).1

/-- C7: order creation clears the customer's cart exactly on success —
on success the resulting state has an empty cart and the order appended
to the order collection, and on failure the state (cart included) is
unchanged. -/
theorem C7_cart_cleared_iff_success (store : Store) (req : Request) (n : String) :
    ((orderResult (createOrder store req n)).isSome = true →
      (createOrder store req n).2.cart = [] ∧
      ∃ o, orderResult (createOrder store req n) = some o ∧
        (createOrder store req n).2.orders = store.orders ++ [o]) ∧
    ((orderResult (createOrder store req n)).isSome = false →
      (createOrder store req n).2 = store) := by
  constructor
  · intro hok
    unfold createOrder orderResult at hok ⊢
    cases hg : gatherItems store req with
    | error e => rw [hg] at hok; simp at hok
    | ok ois => simp [hg]
  · intro hfail
    unfold orderResult at hfail
    unfold createOrder at hfail ⊢
    cases hg : gatherItems store req with
    | error e => simp [hg]
    | ok ois => rw [hg] at hfail; simp at hfail

/-- Witness for C7: a successful checkout leaves an empty cart with the
order persisted, and a checkout failing on an empty cart leaves the
store untouched. -/
theorem C7_cart_cleared_iff_success_witness :
    ((createOrder demoStore demoReq "ORD-1-2").2.cart = [] ∧
      ∃ o, orderResult (createOrder demoStore demoReq "ORD-1-2") = some o ∧
        (createOrder demoStore demoReq "ORD-1-2").2.orders =
          demoStore.orders ++ [o]) ∧
    (createOrder emptyStore emptyReq "ORD-0-0").2 = emptyStore :=
  ⟨(C7_cart_cleared_iff_success demoStore demoReq "ORD-1-2").1 rfl,
   (C7_cart_cleared_iff_success emptyStore emptyReq "ORD-0-0").2 rfl⟩

/-- C9: with request-body items, the persisted line items and pricing are
derived only from the server's product records and the server-trusted
request fields; two requests that agree on product ids, quantities,
variants, promo code and supplied pricing — i.e. differ at most in
client-supplied per-item price or name — create the same line items and
the same pricing breakdown. -/
theorem C9_client_fields_ignored (store : Store) (req req' : Request) (n : String)
    (hne : req.items ≠ [])
    (hitems : req.items.map scrubItem = req'.items.map scrubItem)
    (hpromo : req.promoCode = req'.promoCode)
    (hpricing : req.pricing = req'.pricing) :
    (orderResult (createOrder store req n)).map (fun o => (o.items, o.pricing)) =
      (orderResult (createOrder store req' n)).map (fun o => (o.items, o.pricing)) := by
  have hne' : req'.items ≠ [] := by
    intro h
    rw [h] at hitems
    simp at hitems
    exact hne hitems
  have hg : gatherItems store req = validateItems store.products req.items :=
    gatherItems_of_nonempty store req hne
  have hg' : gatherItems store req' = validateItems store.products req'.items :=
    gatherItems_of_nonempty store req' hne'
  unfold createOrder orderResult
  rw [hg, hg']
  cases hv : validateItems store.products req.items with
  | ok ois =>
    rw [validateItems_map_eq store.products req.items req'.items hitems ois hv]
    simp [hpromo, hpricing]
  | error e =>
    cases hv' : validateItems store.products req'.items with
    | error e' => simp
    | ok ois' =>
      have := validateItems_map_eq store.products req'.items req.items hitems.symm ois' hv'
      rw [this] at hv
      cases hv

/-- Witness for C9: a request with an honest name and price and one with
a tampered name and price produce the same line items and pricing. -/
theorem C9_client_fields_ignored_witness :
    (orderResult (createOrder demoStore demoReq "ORD-1-2")).map
        (fun o => (o.items, o.pricing)) =
      (orderResult (createOrder demoStore
        { items := [{ productId := 1, name := some "Hacked", price := some 1,
                      quantity := 2, variant := [] }]
          pricing := none
          promoCode := none } "ORD-1-2")).map (fun o => (o.items, o.pricing)) :=
  C9_client_fields_ignored demoStore demoReq _ "ORD-1-2"
    (by simp [demoReq]) (by simp [demoReq, scrubItem]) rfl rfl

/-- C3: cancelling an existing order is rejected exactly when its status
is `shipped` or `delivered`; a rejected cancellation leaves the store
(inventory included) unchanged; a successful one sets the order's status
to `cancelled` and adds each line item's ordered quantity back to the
corresponding product's inventory count (summed over the line items
referencing that product, for products still present, with a well-formed
non-negative count and quantities). -/
theorem C3_cancel_restores_inventory (store : Store) (i : Nat) (o : Order)
    (ho : store.orders.get? i = some o) :
    (((cancelOrder store i).1 = .error .cannotCancel) ↔
      (o.status = "shipped" ∨ o.status = "delivered")) ∧
    ((o.status = "shipped" ∨ o.status = "delivered") →
      (cancelOrder store i).2 = store) ∧
    (¬(o.status = "shipped" ∨ o.status = "delivered") →
      (cancelOrder store i).2.orders.get? i =
        some { o with status := "cancelled" } ∧
      ∀ pid p, lookupProduct store.products pid = some p →
        0 ≤ p.inventoryCount → (∀ oi ∈ o.items, 0 ≤ oi.quantity) →
        lookupProduct (cancelOrder store i).2.products pid =
          some { p with inventoryCount := p.inventoryCount +
            ((o.items.filter (fun oi => decide (oi.productId = pid))).map
              (fun oi => oi.quantity)).sum }) := by
  have hco : cancelOrder store i =
      if o.status = "shipped" ∨ o.status = "delivered" then
        (.error .cannotCancel, store)
      else
        (.ok (),
          { store with
              orders := store.orders.set i { o with status := "cancelled" }
              products := restoreAll store.products o.items }) := by
    unfold cancelOrder
    rw [ho]
  by_cases hst : o.status = "shipped" ∨ o.status = "delivered"
  · rw [hco, if_pos hst]
    exact ⟨by simp [hst], fun _ => rfl, fun h => absurd hst h⟩
  · rw [hco, if_neg hst]
    refine ⟨by simp [hst], fun h => absurd h hst, fun _ => ⟨?_, ?_⟩⟩
    · show (store.orders.set i { o with status := "cancelled" }).get? i = _
      rw [List.get?_set_eq, ho]
      rfl
    · intro pid p hp hc hq
      exact lookup_restoreAll pid o.items store.products p hp hc hq

/-- Witness for C3: cancelling the pending demo order succeeds, marks it
cancelled and restores the 2 ordered widgets, while cancelling the
shipped demo order is rejected and changes nothing. -/
theorem C3_cancel_restores_inventory_witness :
    (cancelOrder cancelStore 0).2.orders.get? 0 =
      some { demoOrder with status := "cancelled" } ∧
    lookupProduct (cancelOrder cancelStore 0).2.products 1 =
      some { widget with inventoryCount := widget.inventoryCount +
        ((demoOrder.items.filter (fun oi => decide (oi.productId = 1))).map
          (fun oi => oi.quantity)).sum } ∧
    ((cancelOrder shippedStore 0).1 = .error .cannotCancel) ∧
    (cancelOrder shippedStore 0).2 = shippedStore := by
  have h := C3_cancel_restores_inventory cancelStore 0 demoOrder rfl
  have h' := C3_cancel_restores_inventory shippedStore 0 shippedOrder rfl
  have hpending : ¬(demoOrder.status = "shipped" ∨ demoOrder.status = "delivered") := by
    simp +decide [demoOrder]
  have hshipped : shippedOrder.status = "shipped" ∨ shippedOrder.status = "delivered" :=
    Or.inl rfl
  exact ⟨(h.2.2 hpending).1,
    (h.2.2 hpending).2 1 widget rfl (by norm_num [widget])
      (by simp +decide [demoOrder]),
    h'.1.mpr hshipped,
    h'.2.1 hshipped⟩

end OrderFlow
